import Mathlib

/-!
Verification of the prowla task-lock and event-bus core.

The development shallowly embeds `src/mcp-server/lib/task-lock.js` (task queue
with locking, backed by one JSON file per task) and the event emitter module
(in-memory event log, subscriptions, long-poll).

Modelling conventions:
* A JSON value stored in a task file is a `JVal`.  ISO-8601 timestamp strings
  are represented by the `JVal.time` constructor carrying epoch milliseconds;
  this is order- and equality-faithful to `new Date(s).getTime()` on the
  fixed-format strings the code produces, and such a string is always nonempty,
  hence truthy.
* A JS object is an association list of fields (`Obj`); `Obj.set` mirrors JS
  property assignment / object spread (replace-in-place, append if absent) and
  `Obj.del` mirrors the `delete` operator.
* The tasks directory is a `Store`: an association list from filename to the
  parsed content of the file.  `readJsonFile` is `Store.read`, `writeJsonFile`
  is `Store.write`, `fileExists` is `Store.exists`, `deleteFile` is
  `Store.erase`.  A branch of the source that is only reachable when a file
  holds unparsable JSON (`Failed to read task file`) has no counterpart here,
  since the store holds parsed objects.
* The clock (`Date.now()` / `new Date().toISOString()`) is passed explicitly
  as an integer `now` of epoch milliseconds; fresh ids (`crypto.randomUUID`)
  are passed explicitly as strings.
-/

/-- A JSON value as stored in task files and event payloads.  `time t` stands
for an ISO-8601 timestamp string denoting epoch millisecond `t`. -/
inductive JVal where
  | str : String → JVal
  | time : Int → JVal
  | num : Int → JVal
  | bool : Bool → JVal
  | null : JVal
deriving DecidableEq

/-- JS truthiness of a `JVal`.  A `time` value is a nonempty string, hence
truthy. -/
def JVal.truthy : JVal → Bool
  | .str s => s ≠ ""
  | .time _ => true
  | .num n => n ≠ 0
  | .bool b => b
  | .null => false

/-- The epoch milliseconds `new Date(v).getTime()` yields on `v`, when that is
a number (`NaN` results are `none`). -/
def JVal.toTime : JVal → Option Int
  | .time t => some t
  | .num n => some n
  | _ => none

/-- First-match lookup in an association list (JS property read). -/
def lookupKey {β : Type} : List (String × β) → String → Option β
  | [], _ => none
  | (k', v) :: rest, k => if k' = k then some v else lookupKey rest k

/-- Replace the value at a key in place, appending when absent (JS property
assignment; preserves key order like a JS object). -/
def setKey {β : Type} : List (String × β) → String → β → List (String × β)
  | [], k, v => [(k, v)]
  | (k', v') :: rest, k, v =>
    if k' = k then (k, v) :: rest else (k', v') :: setKey rest k v

/-- Remove a key (the JS `delete` operator). -/
def delKey {β : Type} (l : List (String × β)) (k : String) : List (String × β) :=
  l.filter (fun p => p.1 ≠ k)

/-- A JS object: fields in insertion order. -/
structure Obj where
  fields : List (String × JVal)
deriving DecidableEq

def Obj.get (o : Obj) (k : String) : Option JVal :=
  lookupKey o.fields k

def Obj.set (o : Obj) (k : String) (v : JVal) : Obj :=
  ⟨setKey o.fields k v⟩

def Obj.del (o : Obj) (k : String) : Obj :=
  ⟨delKey o.fields k⟩

/-- The tasks directory: filename to parsed JSON content. -/
structure Store where
  files : List (String × Obj)
deriving DecidableEq

/-- `readJsonFile(path, null)`: the parsed content, or `none` when the file
does not exist. -/
def Store.read (s : Store) (filename : String) : Option Obj :=
  lookupKey s.files filename

/-- `fileExists(path)`. -/
def Store.exists (s : Store) (filename : String) : Bool :=
  (s.read filename).isSome

/-- `writeJsonFile(path, data)`. -/
def Store.write (s : Store) (filename : String) (o : Obj) : Store :=
  ⟨setKey s.files filename o⟩

/-- `deleteFile(path)`. -/
def Store.erase (s : Store) (filename : String) : Store :=
  ⟨delKey s.files filename⟩

/-! ### Association-list lemmas -/

theorem lookupKey_setKey_self {β : Type} (l : List (String × β)) (k : String) (v : β) :
    lookupKey (setKey l k v) k = some v := by
  induction l with
  | nil => simp [setKey, lookupKey]
  | cons p rest ih =>
    obtain ⟨k', v'⟩ := p
    by_cases h : k' = k
    · simp [setKey, h, lookupKey]
    · simp [setKey, h, lookupKey, ih]

theorem lookupKey_setKey_ne {β : Type} (l : List (String × β)) (k k' : String) (v : β)
    (h : k' ≠ k) : lookupKey (setKey l k v) k' = lookupKey l k' := by
  have hne : ¬ k = k' := fun hh => h (Eq.symm hh)
  induction l with
  | nil => simp [setKey, lookupKey, hne]
  | cons p rest ih =>
    obtain ⟨k₀, v₀⟩ := p
    by_cases h0 : k₀ = k
    · subst h0
      simp [setKey, lookupKey, hne]
    · simp [setKey, h0, lookupKey, ih]

theorem setKey_eq_self {β : Type} (l : List (String × β)) (k : String) (v : β)
    (h : lookupKey l k = some v) : setKey l k v = l := by
  induction l with
  | nil => simp [lookupKey] at h
  | cons p rest ih =>
    obtain ⟨k₀, v₀⟩ := p
    by_cases h0 : k₀ = k
    · subst h0
      simp [lookupKey] at h
      simp [setKey, h]
    · simp [lookupKey, h0] at h
      simp [setKey, h0, ih h]

theorem lookupKey_delKey_self {β : Type} (l : List (String × β)) (k : String) :
    lookupKey (delKey l k) k = none := by
  induction l with
  | nil => simp [delKey, lookupKey]
  | cons p rest ih =>
    obtain ⟨k₀, v₀⟩ := p
    by_cases h0 : k₀ = k
    · simpa [delKey, h0] using ih
    · simpa [delKey, h0, lookupKey] using ih

theorem delKey_eq_self {β : Type} (l : List (String × β)) (k : String)
    (h : lookupKey l k = none) : delKey l k = l := by
  induction l with
  | nil => simp [delKey]
  | cons p rest ih =>
    obtain ⟨k₀, v₀⟩ := p
    by_cases h0 : k₀ = k
    · simp [lookupKey, h0] at h
    · simp [lookupKey, h0] at h
      simp [delKey, h0, List.filter]
      have := ih h
      simpa [delKey] using this

theorem Obj.get_set_self (o : Obj) (k : String) (v : JVal) :
    (o.set k v).get k = some v :=
  lookupKey_setKey_self o.fields k v

theorem Obj.get_set_ne (o : Obj) (k k' : String) (v : JVal) (h : k' ≠ k) :
    (o.set k v).get k' = o.get k' :=
  lookupKey_setKey_ne o.fields k k' v h

theorem Obj.get_del_self (o : Obj) (k : String) :
    (o.del k).get k = none :=
  lookupKey_delKey_self o.fields k

theorem lookupKey_delKey_ne {β : Type} (l : List (String × β)) (k k' : String)
    (h : k' ≠ k) : lookupKey (delKey l k) k' = lookupKey l k' := by
  induction l with
  | nil => simp [delKey, lookupKey]
  | cons p rest ih =>
    obtain ⟨k₀, v₀⟩ := p
    by_cases h0 : k₀ = k
    · subst h0
      have h1 : ¬ k₀ = k' := fun hh => h (Eq.symm hh)
      simpa [delKey, lookupKey, h1] using ih
    · by_cases h1 : k₀ = k'
      · simp [delKey, List.filter, h0, lookupKey, h1, h]
      · simpa [delKey, List.filter, h0, lookupKey, h1] using ih

theorem Obj.get_del_ne (o : Obj) (k k' : String) (h : k' ≠ k) :
    (o.del k).get k' = o.get k' :=
  lookupKey_delKey_ne o.fields k k' h

/-! ### Task-lock module (`src/mcp-server/lib/task-lock.js`) -/

/-- `STALE_LOCK_MS`: how long before a lock is considered stale (30 minutes). -/
def STALE_LOCK_MS : Int := 30 * 60 * 1000

/-- `isLockStale(task)`: false when `claimed_at` is falsy, otherwise whether
`now - claimedAt` exceeds the staleness threshold (a `NaN` claimed-at compares
false). -/
def isLockStale (task : Obj) (now : Int) : Bool :=
  match task.get "claimed_at" with
  | none => false
  | some v =>
    if v.truthy then
      match v.toTime with
      | some t => now - t > STALE_LOCK_MS
      | none => false
    else false

/-- `getTask(filename)`. -/
def getTask (store : Store) (filename : String) : Option Obj :=
  store.read filename

/-- The JSON value written for `claimed_by` (`agentId` defaults to `null`). -/
def agentJVal : Option String → JVal
  | some s => .str s
  | none => .null

/-- Result of `claimTask`. -/
inductive ClaimResult where
  | notFound : ClaimResult
  | alreadyClaimed (claimed_by claimed_at : Option JVal) : ClaimResult
  | success (task : Obj) (claimed_at : Int) : ClaimResult
deriving DecidableEq

def ClaimResult.isSuccess : ClaimResult → Bool
  | .success _ _ => true
  | _ => false

/-- `claimTask(filename, agentId)`: fail when the file is missing; fail with
the current claimant when the task is `in_progress` and not stale; otherwise
set claim metadata and write the file back. -/
def claimTask (store : Store) (filename : String) (agentId : Option String)
    (now : Int) : ClaimResult × Store :=
  match store.read filename with
  | none => (.notFound, store)
  | some task =>
    if task.get "status" = some (.str "in_progress") ∧ isLockStale task now = false then
      (.alreadyClaimed (task.get "claimed_by") (task.get "claimed_at"), store)
    else
      let task' := ((((task.set "status" (.str "in_progress")).set "claimed_at"
        (.time now)).set "claimed_by" (agentJVal agentId)).set "filename" (.str filename))
      (.success task' now, store.write filename task')

/-- Result of `releaseTask` / `completeTask`. -/
inductive SimpleResult where
  | ok : SimpleResult
  | notFound : SimpleResult
deriving DecidableEq

/-- `releaseTask(filename)`: set status back to pending, delete the claim
metadata, write the file back. -/
def releaseTask (store : Store) (filename : String) : SimpleResult × Store :=
  match store.read filename with
  | none => (.notFound, store)
  | some task =>
    let task' := ((task.set "status" (.str "pending")).del "claimed_at").del "claimed_by"
    (.ok, store.write filename task')

/-- `completeTask(filename)`: delete the task file. -/
def completeTask (store : Store) (filename : String) : SimpleResult × Store :=
  if store.exists filename then (.ok, store.erase filename)
  else (.notFound, store)

/-- Result of `createTask`. -/
structure CreateResult where
  already_exists : Bool
  filename : String
deriving DecidableEq

/-- `createTask(taskData, filename)`: no-op when the file exists; otherwise
store `{...taskData, createdAt: now, status: 'pending'}`. -/
def createTask (store : Store) (taskData : Obj) (filename : String)
    (now : Int) : CreateResult × Store :=
  if store.exists filename then
    (⟨true, filename⟩, store)
  else
    let task := (taskData.set "createdAt" (.time now)).set "status" (.str "pending")
    (⟨false, filename⟩, store.write filename task)

/-- The effective status used by `listTasksSync`: `task.status || 'pending'`. -/
def effectiveStatus0 (task : Obj) : JVal :=
  match task.get "status" with
  | some v => if v.truthy then v else .str "pending"
  | none => .str "pending"

/-- The sort key `new Date(a.createdAt || 0).getTime()` (a non-time truthy
value would be `NaN` in JS; it is unreachable for records written by
`createTask` and mapped to 0 here). -/
def taskSortKey (task : Obj) : Int :=
  match task.get "createdAt" with
  | some v => if v.truthy then v.toTime.getD 0 else 0
  | none => 0

/-- The per-file body of the `listTasksSync` loop: attach the filename,
compute the effective status (downgrading a stale in-progress lock to pending
and annotating `is_stale` when `includeStale` is set), then apply the type and
status filters.  Returns `none` when the task is filtered out. -/
def processOne (task : Obj) (filename : String) (typeF statusF : Option String)
    (includeStale : Bool) (now : Int) : Option Obj :=
  let task1 := task.set "filename" (.str filename)
  let eff0 := effectiveStatus0 task1
  let staleCase : Bool :=
    includeStale && (eff0 = JVal.str "in_progress" : Bool) && isLockStale task1 now
  let task2 := if staleCase then task1.set "is_stale" (.bool true) else task1
  let eff := if staleCase then JVal.str "pending" else eff0
  if (match typeF with
      | some t => task2.get "type" ≠ some (.str t)
      | none => false : Bool) then none
  else if (match statusF with
      | some st => eff ≠ JVal.str st
      | none => false : Bool) then none
  else some task2

/-- The `filename.endsWith('.json')` check of the directory scan, modelled as
a character-level suffix test (equivalent for the literal suffix involved). -/
def strEndsWith (s suf : String) : Bool :=
  suf.data.isSuffixOf s.data

/-- `listTasksSync({type, status, includeStale})`: read every `.json` file of
the tasks directory, process each record, and sort oldest-created-first. -/
def listTasksSync (store : Store) (typeF statusF : Option String)
    (includeStale : Bool) (now : Int) : List Obj :=
  let files := (store.files.map Prod.fst).filter (fun f => strEndsWith f ".json")
  let tasks := files.filterMap (fun filename =>
    match getTask store filename with
    | none => none
    | some task => processOne task filename typeF statusF includeStale now)
  tasks.mergeSort (fun a b => decide (taskSortKey a ≤ taskSortKey b))

/-! ### Event-bus module (event emitter) -/

/-- Maximum events to keep in memory. -/
def MAX_EVENTS : Nat := 1000

/-- Event retention period (1 hour). -/
def EVENT_RETENTION_MS : Int := 60 * 60 * 1000

/-- An event of the in-memory event log. -/
structure Event where
  id : String
  type : String
  timestamp : Int
  payload : Obj
deriving DecidableEq

/-- A subscription (webhook deliveries are external network effects and are not modelled;
every subscription considered by the theorems has `webhook_url = none`, for
which the webhook path of `emit` is a no-op). -/
structure Subscription where
  id : String
  event_types : List String
  webhook_url : Option String
  callback_id : Option String
  created_at : Int
  last_event_id : Option String
deriving DecidableEq

/-- An entry of the `pendingPolls` map (the JS resolve callback is represented
by the delivery bookkeeping of `notifyPollersAux` and `pollTimeout`). -/
structure PendingPoll where
  subscription_id : String
deriving DecidableEq

/-- The process-local state of the event bus. -/
structure BusState where
  eventStore : List Event
  subscriptions : List (String × Subscription)
  pendingPolls : List (String × PendingPoll)
deriving DecidableEq

/-- `pruneEvents()`: drop events older than the retention period, then keep
only the last `MAX_EVENTS` (`slice(-MAX_EVENTS)`). -/
def pruneEvents (events : List Event) (now : Int) : List Event :=
  let kept := events.filter (fun e => decide (e.timestamp > now - EVENT_RETENTION_MS))
  if kept.length > MAX_EVENTS then kept.drop (kept.length - MAX_EVENTS) else kept

/-- `notifyPollers(event)`: walk the pending polls in insertion order; for each
whose subscription exists and matches the event type, resolve it with
`[event]` (advancing that subscription's cursor to the event id) and remove it
from the map.  Returns the updated subscriptions, the surviving polls, and the
ids of the polls that were resolved with the event. -/
def notifyPollersAux (event : Event) :
    List (String × PendingPoll) → List (String × Subscription) →
    List (String × Subscription) × List (String × PendingPoll) × List String
  | [], subs => (subs, [], [])
  | (pollId, p) :: rest, subs =>
    match lookupKey subs p.subscription_id with
    | none =>
      let r := notifyPollersAux event rest subs
      (r.1, (pollId, p) :: r.2.1, r.2.2)
    | some sub =>
      if event.type ∈ sub.event_types then
        let subs' := setKey subs p.subscription_id { sub with last_event_id := some event.id }
        let r := notifyPollersAux event rest subs'
        (r.1, r.2.1, pollId :: r.2.2)
      else
        let r := notifyPollersAux event rest subs
        (r.1, (pollId, p) :: r.2.1, r.2.2)

/-- `emit(type, payload)`: build the event, append it to the store, prune, and
notify the pending polls.  (The webhook fan-out is a fire-and-forget network
dispatch; it touches no bus state for subscriptions without a `webhook_url`.)
Returns the event, the new state, and the resolved poll ids. -/
def emit (s : BusState) (ty : String) (payload : Obj) (now : Int) (newId : String) :
    Event × BusState × List String :=
  let event : Event := ⟨newId, ty, now, payload⟩
  let events' := pruneEvents (s.eventStore ++ [event]) now
  let r := notifyPollersAux event s.pendingPolls s.subscriptions
  (event, ⟨events', r.1, r.2.1⟩, r.2.2)

/-- The events `poll` considers pending for a subscription: events of a
subscribed type and, when the cursor's event is still in the store, strictly
newer than that event's timestamp. -/
def pendingFor (events : List Event) (sub : Subscription) : List Event :=
  let lastEventTime : Option Int :=
    match sub.last_event_id with
    | some lastId => (events.find? (fun e => e.id = lastId)).map Event.timestamp
    | none => none
  events.filter (fun e =>
    if e.type ∈ sub.event_types then
      match lastEventTime with
      | some t => decide (¬ e.timestamp ≤ t)
      | none => true
    else false)

/-- Outcome of a `poll` call: unknown subscription, an immediate delivery, or
a registered long-poll (which later resolves via `notifyPollersAux` on a
matching emit, or via `pollTimeout`). -/
inductive PollResult where
  | notFound : PollResult
  | events (evs : List Event) : PollResult
  | waiting (pollId : String) : PollResult
deriving DecidableEq

/-- `poll(subscriptionId, timeoutMs)` up to its first suspension point: return
pending events immediately (advancing the cursor to the last one), or register
a pending poll. -/
def poll (s : BusState) (subId : String) (newPollId : String) : PollResult × BusState :=
  match lookupKey s.subscriptions subId with
  | none => (.notFound, s)
  | some sub =>
    let pending := pendingFor s.eventStore sub
    match pending.getLast? with
    | some last =>
      ((.events pending),
        ⟨s.eventStore,
         setKey s.subscriptions subId { sub with last_event_id := some last.id },
         s.pendingPolls⟩)
    | none =>
      ((.waiting newPollId),
        ⟨s.eventStore, s.subscriptions,
         s.pendingPolls ++ [(newPollId, ⟨subId⟩)]⟩)

/-- The timeout handler of a registered long-poll: drop the pending poll and
resolve with no events (the cursor is not touched). -/
def pollTimeout (s : BusState) (pollId : String) : List Event × BusState :=
  ([], ⟨s.eventStore, s.subscriptions, delKey s.pendingPolls pollId⟩)

/-- `listEvents({since, type, limit})`: filter the store by timestamp and
type, sort newest-first, and truncate to `limit`. -/
def listEvents (s : BusState) (since : Option Int) (typeF : Option String)
    (limit : Nat) : List Event :=
  let evs := s.eventStore
  let evs : List Event := match since with
    | some t => evs.filter (fun e => decide (e.timestamp > t))
    | none => evs
  let evs : List Event := match typeF with
    | some ty => evs.filter (fun e => e.type = ty)
    | none => evs
  let evs := evs.mergeSort (fun a b => decide (b.timestamp ≤ a.timestamp))
  evs.take limit

/-! ### Shared helper lemmas for the task-lock theorems -/

theorem Store.read_write_self (s : Store) (k : String) (o : Obj) :
    (s.write k o).read k = some o :=
  lookupKey_setKey_self s.files k o

theorem Store.read_erase_self (s : Store) (k : String) :
    (s.erase k).read k = none :=
  lookupKey_delKey_self s.files k

theorem mem_map_fst_of_lookupKey {β : Type} (l : List (String × β)) (k : String) (v : β)
    (h : lookupKey l k = some v) : k ∈ l.map Prod.fst := by
  induction l with
  | nil => simp [lookupKey] at h
  | cons p rest ih =>
    obtain ⟨k₀, v₀⟩ := p
    by_cases h0 : k₀ = k
    · simp [h0]
    · simp [lookupKey, h0] at h
      simp [ih h]

/-! ### Claim theorems for the task-lock module -/

/-- C4: calling `create(type, key, payload)` twice in a row returns
`alreadyExists = false` then `alreadyExists = true`, and the stored record
(its `createdAt` and payload fields from the first call) is unchanged by the
second call. -/
theorem createTask_idempotent (store : Store) (d1 d2 : Obj) (k : String) (t1 t2 : Int)
    (hfresh : store.read k = none) :
    (createTask store d1 k t1).1.already_exists = false ∧
    (createTask (createTask store d1 k t1).2 d2 k t2).1.already_exists = true ∧
    (createTask (createTask store d1 k t1).2 d2 k t2).2 = (createTask store d1 k t1).2 ∧
    (createTask store d1 k t1).2.read k =
      some ((d1.set "createdAt" (.time t1)).set "status" (.str "pending")) := by
  have h1 : store.exists k = false := by simp [Store.exists, hfresh]
  simp only [createTask, h1, Bool.false_eq_true, if_false]
  have h2 : (store.write k ((d1.set "createdAt" (.time t1)).set "status"
      (.str "pending"))).read k =
      some ((d1.set "createdAt" (.time t1)).set "status" (.str "pending")) :=
    Store.read_write_self _ _ _
  have h3 : (store.write k ((d1.set "createdAt" (.time t1)).set "status"
      (.str "pending"))).exists k = true := by
    simp [Store.exists, h2]
  simp [h2, h3]

/-- Witness for C4 at a concrete store and payload. -/
theorem createTask_idempotent_witness :
    Store.read ⟨[]⟩ "research-acme.json" = none ∧
    ((createTask ⟨[]⟩ ⟨[("company", JVal.str "Acme")]⟩ "research-acme.json" 7).1.already_exists
        = false ∧
      (createTask (createTask ⟨[]⟩ ⟨[("company", JVal.str "Acme")]⟩ "research-acme.json" 7).2
          ⟨[("company", JVal.str "Other")]⟩ "research-acme.json" 9).1.already_exists = true ∧
      (createTask (createTask ⟨[]⟩ ⟨[("company", JVal.str "Acme")]⟩ "research-acme.json" 7).2
          ⟨[("company", JVal.str "Other")]⟩ "research-acme.json" 9).2 =
        (createTask ⟨[]⟩ ⟨[("company", JVal.str "Acme")]⟩ "research-acme.json" 7).2 ∧
      (createTask ⟨[]⟩ ⟨[("company", JVal.str "Acme")]⟩ "research-acme.json" 7).2.read
          "research-acme.json" =
        some ((Obj.set ⟨[("company", JVal.str "Acme")]⟩ "createdAt" (.time 7)).set "status"
          (.str "pending"))) :=
  ⟨by decide, createTask_idempotent ⟨[]⟩ ⟨[("company", JVal.str "Acme")]⟩
    ⟨[("company", JVal.str "Other")]⟩ "research-acme.json" 7 9 (by decide)⟩

/-- C5: after `complete(key)` succeeds, `get(key)` is not found and a fresh
`create` with the same key succeeds as a new record. -/
theorem completeTask_removes (store : Store) (k : String) (task d : Obj) (t2 : Int)
    (h : store.read k = some task) :
    (completeTask store k).1 = SimpleResult.ok ∧
    getTask (completeTask store k).2 k = none ∧
    (createTask (completeTask store k).2 d k t2).1.already_exists = false := by
  have h2 : (store.erase k).read k = none := Store.read_erase_self store k
  simp [completeTask, Store.exists, h, getTask, h2, createTask]

/-- Witness for C5 at a concrete store. -/
theorem completeTask_removes_witness :
    Store.read ⟨[("a.json", ⟨[("type", JVal.str "research")]⟩)]⟩ "a.json" =
      some ⟨[("type", JVal.str "research")]⟩ ∧
    ((completeTask ⟨[("a.json", ⟨[("type", JVal.str "research")]⟩)]⟩ "a.json").1 =
        SimpleResult.ok ∧
      getTask (completeTask ⟨[("a.json", ⟨[("type", JVal.str "research")]⟩)]⟩ "a.json").2
        "a.json" = none ∧
      (createTask (completeTask ⟨[("a.json", ⟨[("type", JVal.str "research")]⟩)]⟩ "a.json").2
          ⟨[]⟩ "a.json" 11).1.already_exists = false) :=
  ⟨by decide, completeTask_removes ⟨[("a.json", ⟨[("type", JVal.str "research")]⟩)]⟩ "a.json"
    ⟨[("type", JVal.str "research")]⟩ ⟨[]⟩ 11 (by decide)⟩

/-- C6: each failure mode is a structured result value.  In the embedding
every operation is a total function into a result type, mirroring that the
source returns `{success:false, error:...}` objects (with the `ALREADY_CLAIMED`
result additionally carrying the current claimant and claim time) and throws
no exception on any of these paths. -/
theorem task_ops_structured_failures
    (s : Store) (kM : String) (agent : Option String) (now : Int)
    (sL : Store) (kL : String) (task : Obj)
    (hm : s.read kM = none)
    (hL : sL.read kL = some task)
    (hS : task.get "status" = some (JVal.str "in_progress"))
    (hNS : isLockStale task now = false) :
    claimTask s kM agent now = (ClaimResult.notFound, s) ∧
    claimTask sL kL agent now =
      (ClaimResult.alreadyClaimed (task.get "claimed_by") (task.get "claimed_at"), sL) ∧
    completeTask s kM = (SimpleResult.notFound, s) ∧
    releaseTask s kM = (SimpleResult.notFound, s) := by
  refine ⟨by simp [claimTask, hm], ?_, by simp [completeTask, Store.exists, hm],
    by simp [releaseTask, hm]⟩
  simp [claimTask, hL, hS, hNS]

/-- Witness for C6 at a concrete empty store and a concretely locked store. -/
theorem task_ops_structured_failures_witness :
    Store.read ⟨[]⟩ "missing.json" = none ∧
    Store.read ⟨[("b.json", ⟨[("status", JVal.str "in_progress"),
        ("claimed_at", JVal.time 0), ("claimed_by", JVal.str "A")]⟩)]⟩ "b.json" =
      some ⟨[("status", JVal.str "in_progress"), ("claimed_at", JVal.time 0),
        ("claimed_by", JVal.str "A")]⟩ ∧
    Obj.get ⟨[("status", JVal.str "in_progress"), ("claimed_at", JVal.time 0),
        ("claimed_by", JVal.str "A")]⟩ "status" = some (JVal.str "in_progress") ∧
    isLockStale ⟨[("status", JVal.str "in_progress"), ("claimed_at", JVal.time 0),
        ("claimed_by", JVal.str "A")]⟩ 1 = false ∧
    (claimTask ⟨[]⟩ "missing.json" (some "B") 1 = (ClaimResult.notFound, ⟨[]⟩) ∧
      claimTask ⟨[("b.json", ⟨[("status", JVal.str "in_progress"),
          ("claimed_at", JVal.time 0), ("claimed_by", JVal.str "A")]⟩)]⟩ "b.json" (some "B") 1 =
        (ClaimResult.alreadyClaimed
          (Obj.get ⟨[("status", JVal.str "in_progress"), ("claimed_at", JVal.time 0),
            ("claimed_by", JVal.str "A")]⟩ "claimed_by")
          (Obj.get ⟨[("status", JVal.str "in_progress"), ("claimed_at", JVal.time 0),
            ("claimed_by", JVal.str "A")]⟩ "claimed_at"),
          ⟨[("b.json", ⟨[("status", JVal.str "in_progress"), ("claimed_at", JVal.time 0),
            ("claimed_by", JVal.str "A")]⟩)]⟩) ∧
      completeTask ⟨[]⟩ "missing.json" = (SimpleResult.notFound, ⟨[]⟩) ∧
      releaseTask ⟨[]⟩ "missing.json" = (SimpleResult.notFound, ⟨[]⟩)) :=
  ⟨by decide, by decide, by decide, by decide,
    task_ops_structured_failures ⟨[]⟩ "missing.json" (some "B") 1
      ⟨[("b.json", ⟨[("status", JVal.str "in_progress"), ("claimed_at", JVal.time 0),
        ("claimed_by", JVal.str "A")]⟩)]⟩ "b.json"
      ⟨[("status", JVal.str "in_progress"), ("claimed_at", JVal.time 0),
        ("claimed_by", JVal.str "A")]⟩
      (by decide) (by decide) (by decide) (by decide)⟩

/-- C7: `release(key)` on an existing record succeeds regardless of claimant,
sets `status = pending`, clears `claimed_at`/`claimed_by`, leaves every other
field unchanged; on an already-pending record without claim metadata it
rewrites the identical record (no state change); it fails exactly on a
missing record. -/
theorem releaseTask_semantics
    (store : Store) (k : String) (task : Obj) (h : store.read k = some task)
    (storeP : Store) (kP : String) (taskP : Obj) (hp : storeP.read kP = some taskP)
    (hps : taskP.get "status" = some (JVal.str "pending"))
    (hpa : taskP.get "claimed_at" = none) (hpb : taskP.get "claimed_by" = none)
    (storeM : Store) (kM : String) (hm : storeM.read kM = none) :
    (∃ t', releaseTask store k = (SimpleResult.ok, store.write k t') ∧
      t'.get "status" = some (JVal.str "pending") ∧
      t'.get "claimed_at" = none ∧
      t'.get "claimed_by" = none ∧
      ∀ f, f ≠ "status" → f ≠ "claimed_at" → f ≠ "claimed_by" → t'.get f = task.get f) ∧
    releaseTask storeP kP = (SimpleResult.ok, storeP) ∧
    releaseTask storeM kM = (SimpleResult.notFound, storeM) := by
  refine ⟨⟨((task.set "status" (JVal.str "pending")).del "claimed_at").del "claimed_by",
    ?_, ?_, ?_, ?_, ?_⟩, ?_, by simp [releaseTask, hm]⟩
  · simp [releaseTask, h]
  · rw [Obj.get_del_ne _ _ _ (by decide), Obj.get_del_ne _ _ _ (by decide),
      Obj.get_set_self]
  · rw [Obj.get_del_ne _ _ _ (by decide), Obj.get_del_self]
  · rw [Obj.get_del_self]
  · intro f h1 h2 h3
    rw [Obj.get_del_ne _ _ _ h3, Obj.get_del_ne _ _ _ h2, Obj.get_set_ne _ _ _ _ h1]
  · have e1 : taskP.set "status" (JVal.str "pending") = taskP := by
      unfold Obj.set
      rw [setKey_eq_self _ _ _ hps]
    have e2 : taskP.del "claimed_at" = taskP := by
      unfold Obj.del
      rw [delKey_eq_self _ _ hpa]
    have e3 : taskP.del "claimed_by" = taskP := by
      unfold Obj.del
      rw [delKey_eq_self _ _ hpb]
    have e4 : storeP.write kP taskP = storeP := by
      unfold Store.write
      rw [setKey_eq_self _ _ _ hp]
    simp [releaseTask, hp, e1, e2, e3, e4]

/-- Witness for C7: a claimed record, a pending record, and a missing key. -/
theorem releaseTask_semantics_witness :
    Store.read ⟨[("c.json", ⟨[("type", JVal.str "research"),
        ("status", JVal.str "in_progress"), ("claimed_at", JVal.time 4),
        ("claimed_by", JVal.str "A")]⟩)]⟩ "c.json" =
      some ⟨[("type", JVal.str "research"), ("status", JVal.str "in_progress"),
        ("claimed_at", JVal.time 4), ("claimed_by", JVal.str "A")]⟩ ∧
    Store.read ⟨[("p.json", ⟨[("status", JVal.str "pending")]⟩)]⟩ "p.json" =
      some ⟨[("status", JVal.str "pending")]⟩ ∧
    Obj.get ⟨[("status", JVal.str "pending")]⟩ "status" = some (JVal.str "pending") ∧
    Obj.get ⟨[("status", JVal.str "pending")]⟩ "claimed_at" = none ∧
    Obj.get ⟨[("status", JVal.str "pending")]⟩ "claimed_by" = none ∧
    Store.read ⟨[]⟩ "zz.json" = none ∧
    ((∃ t', releaseTask ⟨[("c.json", ⟨[("type", JVal.str "research"),
          ("status", JVal.str "in_progress"), ("claimed_at", JVal.time 4),
          ("claimed_by", JVal.str "A")]⟩)]⟩ "c.json" =
        (SimpleResult.ok, Store.write ⟨[("c.json", ⟨[("type", JVal.str "research"),
          ("status", JVal.str "in_progress"), ("claimed_at", JVal.time 4),
          ("claimed_by", JVal.str "A")]⟩)]⟩ "c.json" t') ∧
        t'.get "status" = some (JVal.str "pending") ∧
        t'.get "claimed_at" = none ∧
        t'.get "claimed_by" = none ∧
        ∀ f, f ≠ "status" → f ≠ "claimed_at" → f ≠ "claimed_by" →
          t'.get f = Obj.get ⟨[("type", JVal.str "research"),
            ("status", JVal.str "in_progress"), ("claimed_at", JVal.time 4),
            ("claimed_by", JVal.str "A")]⟩ f) ∧
      releaseTask ⟨[("p.json", ⟨[("status", JVal.str "pending")]⟩)]⟩ "p.json" =
        (SimpleResult.ok, ⟨[("p.json", ⟨[("status", JVal.str "pending")]⟩)]⟩) ∧
      releaseTask ⟨[]⟩ "zz.json" = (SimpleResult.notFound, ⟨[]⟩)) :=
  ⟨by decide, by decide, by decide, by decide, by decide, by decide,
    releaseTask_semantics
      ⟨[("c.json", ⟨[("type", JVal.str "research"), ("status", JVal.str "in_progress"),
        ("claimed_at", JVal.time 4), ("claimed_by", JVal.str "A")]⟩)]⟩ "c.json"
      ⟨[("type", JVal.str "research"), ("status", JVal.str "in_progress"),
        ("claimed_at", JVal.time 4), ("claimed_by", JVal.str "A")]⟩ (by decide)
      ⟨[("p.json", ⟨[("status", JVal.str "pending")]⟩)]⟩ "p.json"
      ⟨[("status", JVal.str "pending")]⟩ (by decide) (by decide) (by decide) (by decide)
      ⟨[]⟩ "zz.json" (by decide)⟩

/-- C10 counterexample: a payload that itself carries `claimed_by` is stored
with that claim metadata intact — `createTask` overrides only `createdAt` and
`status` (via `{...taskData, createdAt, status}`), so a record can enter the
store with claim metadata, contradicting the claim's final clause. -/
theorem createTask_claim_metadata_cex :
    ((createTask ⟨[]⟩ ⟨[("claimed_by", JVal.str "w"), ("claimed_at", JVal.time 5)]⟩
        "x.json" 3).2.read "x.json").bind (fun t => t.get "claimed_by") =
      some (JVal.str "w") ∧
    ((createTask ⟨[]⟩ ⟨[("claimed_by", JVal.str "w"), ("claimed_at", JVal.time 5)]⟩
        "x.json" 3).2.read "x.json").bind (fun t => t.get "status") =
      some (JVal.str "pending") := by decide

/-- C10 amended: a successful non-duplicate `createTask` stores the record
with `status = 'pending'` and `createdAt` set to the creation time, overriding
any such payload fields; every other payload field — including any
`claimed_at`/`claimed_by` keys the payload happens to carry — is stored
verbatim. -/
theorem createTask_overrides_meta (store : Store) (d : Obj) (k : String) (now : Int)
    (hfresh : store.read k = none) :
    ∃ t, (createTask store d k now).2.read k = some t ∧
      t.get "status" = some (JVal.str "pending") ∧
      t.get "createdAt" = some (JVal.time now) ∧
      ∀ f, f ≠ "status" → f ≠ "createdAt" → t.get f = d.get f := by
  refine ⟨(d.set "createdAt" (JVal.time now)).set "status" (JVal.str "pending"), ?_,
    Obj.get_set_self _ _ _, ?_, ?_⟩
  · simp [createTask, Store.exists, hfresh, Store.read_write_self]
  · rw [Obj.get_set_ne _ _ _ _ (by decide), Obj.get_set_self]
  · intro f h1 h2
    rw [Obj.get_set_ne _ _ _ _ h1, Obj.get_set_ne _ _ _ _ h2]

/-- Witness for the amended C10 at a concrete payload. -/
theorem createTask_overrides_meta_witness :
    Store.read ⟨[]⟩ "y.json" = none ∧
    (∃ t, (createTask ⟨[]⟩ ⟨[("status", JVal.str "done"), ("company", JVal.str "Acme")]⟩
        "y.json" 6).2.read "y.json" = some t ∧
      t.get "status" = some (JVal.str "pending") ∧
      t.get "createdAt" = some (JVal.time 6) ∧
      ∀ f, f ≠ "status" → f ≠ "createdAt" →
        t.get f = Obj.get ⟨[("status", JVal.str "done"), ("company", JVal.str "Acme")]⟩ f) :=
  ⟨by decide, createTask_overrides_meta ⟨[]⟩
    ⟨[("status", JVal.str "done"), ("company", JVal.str "Acme")]⟩ "y.json" 6 (by decide)⟩

/-! ### C1: the claim race across processes -/

/-- The control state of one in-flight `claimTask` call.  The source claim
path is `fileExists`/`readJsonFile`, an in-memory guard, then `writeJsonFile`,
with no exclusion primitive between the read and the write.  The MCP server
runs on a stdio transport, so every connected agent spawns its own server
process against the shared tasks directory (and the Express server is a
further process writing task files); between a call's read and its write,
steps of other processes can therefore act on the same store. -/
inductive ClaimPhase where
  | ready : ClaimPhase
  | toWrite (taskNew : Obj) : ClaimPhase
  | returned (r : ClaimResult) : ClaimPhase
deriving DecidableEq

/-- Whether an in-flight call has returned success. -/
def ClaimPhase.succeeded : ClaimPhase → Bool
  | .returned r => r.isSuccess
  | _ => false

/-- Whether an in-flight call has returned `ALREADY_CLAIMED`. -/
def ClaimPhase.gotAlreadyClaimed : ClaimPhase → Bool
  | .returned (.alreadyClaimed _ _) => true
  | _ => false

/-- One atomic filesystem step of an in-flight `claimTask` call.  From
`ready`, the read phase performs the `fileExists`/`readJsonFile` check and the
`in_progress`-and-not-stale guard, either returning a failure result or
building the claimed record to write; from `toWrite`, the write phase performs
the `writeJsonFile` and returns success.  (The read phase groups the two
reads and the pure guard into one atomic step; that only coarsens the set of
interleavings, so any behavior exhibited here is a behavior of the source.) -/
def claimStep (store : Store) (filename : String) (agentId : Option String)
    (now : Int) : ClaimPhase → ClaimPhase × Store
  | .ready =>
    match store.read filename with
    | none => (.returned .notFound, store)
    | some task =>
      if task.get "status" = some (.str "in_progress") ∧ isLockStale task now = false then
        (.returned (.alreadyClaimed (task.get "claimed_by") (task.get "claimed_at")), store)
      else
        (.toWrite ((((task.set "status" (.str "in_progress")).set "claimed_at"
          (.time now)).set "claimed_by" (agentJVal agentId)).set "filename"
          (.str filename)), store)
  | .toWrite taskNew => (.returned (.success taskNew now), store.write filename taskNew)
  | .returned r => (.returned r, store)

/-- The shared store together with the control state of two racing
`claimTask(filename)` calls, one per process. -/
structure RaceState where
  store : Store
  phaseA : ClaimPhase
  phaseB : ClaimPhase
deriving DecidableEq

/-- Which of the two racing calls takes the next step. -/
inductive Wid where
  | wa : Wid
  | wb : Wid
deriving DecidableEq

/-- Let the scheduled call perform its next atomic step against the shared
store. -/
def raceStep (filename : String) (aId bId : Option String) (now : Int)
    (s : RaceState) : Wid → RaceState
  | .wa =>
    let r := claimStep s.store filename aId now s.phaseA
    ⟨r.2, r.1, s.phaseB⟩
  | .wb =>
    let r := claimStep s.store filename bId now s.phaseB
    ⟨r.2, s.phaseA, r.1⟩

/-- Run the two racing calls under a given interleaving (schedule). -/
def runSchedule (filename : String) (aId bId : Option String) (now : Int)
    (sched : List Wid) (s : RaceState) : RaceState :=
  sched.foldl (raceStep filename aId bId now) s

/-- Faithfulness of the decomposition: a call whose two steps run back to
back (no interleaving) behaves exactly as `claimTask`. -/
theorem runSchedule_serial_eq_claimTask (store : Store) (filename : String)
    (aId bId : Option String) (now : Int) (pb : ClaimPhase) :
    runSchedule filename aId bId now [Wid.wa, Wid.wa] ⟨store, .ready, pb⟩ =
      ⟨(claimTask store filename aId now).2,
        .returned (claimTask store filename aId now).1, pb⟩ := by
  unfold runSchedule claimTask
  cases hr : store.read filename with
  | none => simp [List.foldl, raceStep, claimStep, hr]
  | some task =>
    by_cases hc : task.get "status" = some (JVal.str "in_progress") ∧
        isLockStale task now = false
    · simp [List.foldl, raceStep, claimStep, hr, hc]
    · simp [List.foldl, raceStep, claimStep, hr, hc]

/-- C1 is a code bug: under the interleaving in which both processes pass the
read phase before either writes (A reads, B reads, A writes, B writes), both
`claimTask` calls on the same pending record return success, and neither
receives `ALREADY_CLAIMED` — the claim path is a plain read-then-write with no
exclusion, so the at-most-one-claim property required by the claim (and by the
spec's atomicity requirement on `claim`) fails across processes. -/
theorem claimTask_race_both_succeed :
    (runSchedule "t.json" (some "worker-A") (some "worker-B") 0
        [Wid.wa, Wid.wb, Wid.wa, Wid.wb]
        ⟨⟨[("t.json", ⟨[("type", JVal.str "research")]⟩)]⟩,
          ClaimPhase.ready, ClaimPhase.ready⟩).phaseA.succeeded = true ∧
    (runSchedule "t.json" (some "worker-A") (some "worker-B") 0
        [Wid.wa, Wid.wb, Wid.wa, Wid.wb]
        ⟨⟨[("t.json", ⟨[("type", JVal.str "research")]⟩)]⟩,
          ClaimPhase.ready, ClaimPhase.ready⟩).phaseB.succeeded = true ∧
    (runSchedule "t.json" (some "worker-A") (some "worker-B") 0
        [Wid.wa, Wid.wb, Wid.wa, Wid.wb]
        ⟨⟨[("t.json", ⟨[("type", JVal.str "research")]⟩)]⟩,
          ClaimPhase.ready, ClaimPhase.ready⟩).phaseA.gotAlreadyClaimed = false ∧
    (runSchedule "t.json" (some "worker-A") (some "worker-B") 0
        [Wid.wa, Wid.wb, Wid.wa, Wid.wb]
        ⟨⟨[("t.json", ⟨[("type", JVal.str "research")]⟩)]⟩,
          ClaimPhase.ready, ClaimPhase.ready⟩).phaseB.gotAlreadyClaimed = false := by
  decide


/-- C3: a record claimed at time `T`, listed after `T + STALE_LOCK_MS` with
`includeStale`, is reported under the effective status `pending` and annotated
`is_stale = true`; the stored record is untouched (the listing only reads),
and a subsequent claim on it succeeds. -/
theorem staleness_reclaim
    (store : Store) (k : String) (task : Obj) (T now : Int) (agent : Option String)
    (hjson : strEndsWith k ".json" = true)
    (hread : store.read k = some task)
    (hS : task.get "status" = some (JVal.str "in_progress"))
    (hA : task.get "claimed_at" = some (JVal.time T))
    (hnow : now > T + STALE_LOCK_MS) :
    (∃ t ∈ listTasksSync store none (some "pending") true now,
        t.get "filename" = some (JVal.str k) ∧
        t.get "is_stale" = some (JVal.bool true) ∧
        t.get "claimed_at" = some (JVal.time T)) ∧
    getTask store k = some task ∧
    (∃ t', (claimTask store k agent now).1 = ClaimResult.success t' now) := by
  have hstale : isLockStale task now = true := by
    simp [isLockStale, hA, JVal.truthy, JVal.toTime]
    omega
  refine ⟨?_, hread, ?_⟩
  · set t := (task.set "filename" (JVal.str k)).set "is_stale" (JVal.bool true) with ht
    have hS1 : (task.set "filename" (JVal.str k)).get "status" =
        some (JVal.str "in_progress") := by
      rw [Obj.get_set_ne _ _ _ _ (by decide), hS]
    have hA1 : (task.set "filename" (JVal.str k)).get "claimed_at" =
        some (JVal.time T) := by
      rw [Obj.get_set_ne _ _ _ _ (by decide), hA]
    have hstale1 : isLockStale (task.set "filename" (JVal.str k)) now = true := by
      simp [isLockStale, hA1, JVal.truthy, JVal.toTime]
      omega
    have hproc : processOne task k none (some "pending") true now = some t := by
      simp [processOne, effectiveStatus0, hS1, JVal.truthy, hstale1, ht]
    have hkfiles : k ∈ (store.files.map Prod.fst).filter (fun f => strEndsWith f ".json") :=
      List.mem_filter.mpr ⟨mem_map_fst_of_lookupKey store.files k task hread, hjson⟩
    refine ⟨t, ?_, ?_, Obj.get_set_self _ _ _, ?_⟩
    · unfold listTasksSync
      rw [List.mem_mergeSort]
      exact List.mem_filterMap.mpr ⟨k, hkfiles, by simp [getTask, hread, hproc]⟩
    · rw [ht, Obj.get_set_ne _ _ _ _ (by decide), Obj.get_set_self]
    · rw [ht, Obj.get_set_ne _ _ _ _ (by decide), hA1]
  · refine ⟨(((task.set "status" (JVal.str "in_progress")).set "claimed_at"
      (JVal.time now)).set "claimed_by" (agentJVal agent)).set "filename" (JVal.str k), ?_⟩
    simp [claimTask, hread, hstale]

/-- Witness for C3: a task claimed at epoch 0, listed and reclaimed just past
the staleness threshold. -/
theorem staleness_reclaim_witness :
    strEndsWith "t.json" ".json" = true ∧
    Store.read ⟨[("t.json", ⟨[("status", JVal.str "in_progress"),
        ("claimed_at", JVal.time 0), ("claimed_by", JVal.str "A")]⟩)]⟩ "t.json" =
      some ⟨[("status", JVal.str "in_progress"), ("claimed_at", JVal.time 0),
        ("claimed_by", JVal.str "A")]⟩ ∧
    Obj.get ⟨[("status", JVal.str "in_progress"), ("claimed_at", JVal.time 0),
        ("claimed_by", JVal.str "A")]⟩ "status" = some (JVal.str "in_progress") ∧
    Obj.get ⟨[("status", JVal.str "in_progress"), ("claimed_at", JVal.time 0),
        ("claimed_by", JVal.str "A")]⟩ "claimed_at" = some (JVal.time 0) ∧
    ((1800001 : Int) > 0 + STALE_LOCK_MS) ∧
    ((∃ t ∈ listTasksSync ⟨[("t.json", ⟨[("status", JVal.str "in_progress"),
          ("claimed_at", JVal.time 0), ("claimed_by", JVal.str "A")]⟩)]⟩
          none (some "pending") true 1800001,
        t.get "filename" = some (JVal.str "t.json") ∧
        t.get "is_stale" = some (JVal.bool true) ∧
        t.get "claimed_at" = some (JVal.time 0)) ∧
      getTask ⟨[("t.json", ⟨[("status", JVal.str "in_progress"),
          ("claimed_at", JVal.time 0), ("claimed_by", JVal.str "A")]⟩)]⟩ "t.json" =
        some ⟨[("status", JVal.str "in_progress"), ("claimed_at", JVal.time 0),
          ("claimed_by", JVal.str "A")]⟩ ∧
      (∃ t', (claimTask ⟨[("t.json", ⟨[("status", JVal.str "in_progress"),
          ("claimed_at", JVal.time 0), ("claimed_by", JVal.str "A")]⟩)]⟩
          "t.json" (some "B") 1800001).1 = ClaimResult.success t' 1800001)) :=
  ⟨by decide, by decide, by decide, by decide, by decide,
    staleness_reclaim ⟨[("t.json", ⟨[("status", JVal.str "in_progress"),
      ("claimed_at", JVal.time 0), ("claimed_by", JVal.str "A")]⟩)]⟩ "t.json"
      ⟨[("status", JVal.str "in_progress"), ("claimed_at", JVal.time 0),
        ("claimed_by", JVal.str "A")]⟩ 0 1800001 (some "B")
      (by decide) (by decide) (by decide) (by decide) (by decide)⟩

/-! ### Shared helper lemmas for the event-bus theorems -/

theorem pruneEvents_length (l : List Event) (now : Int) :
    (pruneEvents l now).length ≤ MAX_EVENTS := by
  unfold pruneEvents
  by_cases h : (l.filter (fun e => decide (e.timestamp > now - EVENT_RETENTION_MS))).length >
      MAX_EVENTS
  · simp only [h, if_true, List.length_drop]
    omega
  · simp only [h, if_false]
    omega

theorem mem_pruneEvents (l : List Event) (now : Int) (e : Event)
    (h : e ∈ pruneEvents l now) :
    e ∈ l ∧ e.timestamp > now - EVENT_RETENTION_MS := by
  unfold pruneEvents at h
  by_cases hc : (l.filter (fun e => decide (e.timestamp > now - EVENT_RETENTION_MS))).length >
      MAX_EVENTS
  · simp only [hc, if_true] at h
    have := List.mem_of_mem_drop h
    have := List.mem_filter.mp this
    exact ⟨this.1, by simpa using this.2⟩
  · simp only [hc, if_false] at h
    have := List.mem_filter.mp h
    exact ⟨this.1, by simpa using this.2⟩

theorem pruneEvents_id (l : List Event) (now : Int)
    (h1 : ∀ e ∈ l, e.timestamp > now - EVENT_RETENTION_MS)
    (h2 : l.length ≤ MAX_EVENTS) : pruneEvents l now = l := by
  unfold pruneEvents
  have hf : l.filter (fun e => decide (e.timestamp > now - EVENT_RETENTION_MS)) = l :=
    List.filter_eq_self.mpr (fun e he => by simpa using h1 e he)
  rw [hf]
  simp [Nat.not_lt.mpr h2]

theorem listEvents_subset (s : BusState) (since : Option Int) (typeF : Option String)
    (limit : Nat) (e : Event) (h : e ∈ listEvents s since typeF limit) :
    e ∈ s.eventStore := by
  unfold listEvents at h
  have h1 := List.mem_of_mem_take h
  rw [List.mem_mergeSort] at h1
  cases since <;> cases typeF <;>
    first
      | exact h1
      | exact (List.mem_filter.mp h1).1
      | exact (List.mem_filter.mp (List.mem_filter.mp h1).1).1

theorem pendingFor_subset (events : List Event) (sub : Subscription) (e : Event)
    (h : e ∈ pendingFor events sub) : e ∈ events := by
  unfold pendingFor at h
  exact (List.mem_filter.mp h).1

theorem poll_events_subset (s : BusState) (subId pid : String) (evs : List Event)
    (s' : BusState) (h : poll s subId pid = (PollResult.events evs, s')) :
    ∀ e ∈ evs, e ∈ s.eventStore := by
  unfold poll at h
  cases hl : lookupKey s.subscriptions subId with
  | none => rw [hl] at h; simp at h
  | some sub =>
    rw [hl] at h
    simp only at h
    cases hg : (pendingFor s.eventStore sub).getLast? with
    | none => rw [hg] at h; simp at h
    | some last =>
      rw [hg] at h
      simp only [Prod.mk.injEq, PollResult.events.injEq] at h
      intro e he
      rw [← h.1] at he
      exact pendingFor_subset s.eventStore sub e he

/-- C8: after every `emit`, the in-memory event log holds at most
`MAX_EVENTS` events, all within the retention window ending at the emit time;
and both `listEvents` and an immediate `poll` delivery only ever return events
of that log. -/
theorem emit_bounded_log (s : BusState) (ty : String) (p : Obj) (now : Int)
    (newId : String) :
    ((emit s ty p now newId).2.1.eventStore.length ≤ MAX_EVENTS) ∧
    (∀ e ∈ (emit s ty p now newId).2.1.eventStore,
      now - e.timestamp < EVENT_RETENTION_MS) ∧
    (∀ since typeF limit, ∀ e ∈ listEvents (emit s ty p now newId).2.1 since typeF limit,
      e ∈ (emit s ty p now newId).2.1.eventStore) ∧
    (∀ subId pid evs s', poll (emit s ty p now newId).2.1 subId pid =
        (PollResult.events evs, s') →
      ∀ e ∈ evs, e ∈ (emit s ty p now newId).2.1.eventStore) := by
  have hstore : (emit s ty p now newId).2.1.eventStore =
      pruneEvents (s.eventStore ++ [⟨newId, ty, now, p⟩]) now := by
    simp [emit]
  refine ⟨?_, ?_, ?_, ?_⟩
  · rw [hstore]; exact pruneEvents_length _ _
  · intro e he
    rw [hstore] at he
    have := (mem_pruneEvents _ _ _ he).2
    omega
  · intro since typeF limit e he
    exact listEvents_subset _ since typeF limit e he
  · intro subId pid evs s' hp
    exact poll_events_subset _ subId pid evs s' hp

/-- C9: when a subscription's `last_event_id` refers to an event that is no
longer in the retained log, `poll` finds no cursor timestamp and falls back to
no-cursor behavior, immediately returning every retained event whose type the
subscription subscribes to — re-delivering events delivered before. -/
theorem poll_lost_cursor_redelivers
    (s : BusState) (subId pid lastId : String) (sub : Subscription)
    (hsub : lookupKey s.subscriptions subId = some sub)
    (hcur : sub.last_event_id = some lastId)
    (hlost : ∀ e ∈ s.eventStore, e.id ≠ lastId)
    (hne : s.eventStore.filter (fun e => decide (e.type ∈ sub.event_types)) ≠ []) :
    (poll s subId pid).1 =
      PollResult.events
        (s.eventStore.filter (fun e => decide (e.type ∈ sub.event_types))) := by
  have hfind : s.eventStore.find? (fun e => e.id = lastId) = none :=
    List.find?_eq_none.mpr (fun e he => by simpa using hlost e he)
  have hpend : pendingFor s.eventStore sub =
      s.eventStore.filter (fun e => decide (e.type ∈ sub.event_types)) := by
    unfold pendingFor
    simp only [hcur, hfind, Option.map_none']
    refine List.filter_congr ?_
    intro e _
    by_cases h : e.type ∈ sub.event_types <;> simp [h]
  obtain ⟨last, hlast⟩ :=
    Option.isSome_iff_exists.mp (List.getLast?_isSome.mpr hne)
  unfold poll
  rw [hsub]
  simp only [hpend, hlast]

/-- Witness for C9: the cursor names a pruned id; both retained matching
events come back, including one older than the lost cursor position. -/
theorem poll_lost_cursor_redelivers_witness :
    lookupKey [("s1", Subscription.mk "s1" ["task.created"] none none 0 (some "gone"))]
        "s1" = some (Subscription.mk "s1" ["task.created"] none none 0 (some "gone")) ∧
    Subscription.last_event_id
        (Subscription.mk "s1" ["task.created"] none none 0 (some "gone")) = some "gone" ∧
    (∀ e ∈ [Event.mk "e0" "task.created" 100 ⟨[]⟩, Event.mk "e9" "job.created" 150 ⟨[]⟩],
      Event.id e ≠ "gone") ∧
    List.filter (fun e => decide (Event.type e ∈ ["task.created"]))
        [Event.mk "e0" "task.created" 100 ⟨[]⟩, Event.mk "e9" "job.created" 150 ⟨[]⟩] ≠ [] ∧
    (poll (BusState.mk
        [Event.mk "e0" "task.created" 100 ⟨[]⟩, Event.mk "e9" "job.created" 150 ⟨[]⟩]
        [("s1", Subscription.mk "s1" ["task.created"] none none 0 (some "gone"))] [])
        "s1" "p1").1 =
      PollResult.events
        (List.filter (fun e => decide (Event.type e ∈
            Subscription.event_types
              (Subscription.mk "s1" ["task.created"] none none 0 (some "gone"))))
          [Event.mk "e0" "task.created" 100 ⟨[]⟩, Event.mk "e9" "job.created" 150 ⟨[]⟩]) :=
  ⟨by decide, by decide, by decide, by decide,
    poll_lost_cursor_redelivers
      (BusState.mk
        [Event.mk "e0" "task.created" 100 ⟨[]⟩, Event.mk "e9" "job.created" 150 ⟨[]⟩]
        [("s1", Subscription.mk "s1" ["task.created"] none none 0 (some "gone"))] [])
      "s1" "p1" "gone" (Subscription.mk "s1" ["task.created"] none none 0 (some "gone"))
      (by decide) (by decide) (by decide) (by decide)⟩

/-- C2 counterexample: when the matching event E1 is emitted within the same
millisecond as the cursor event E0 (both timestamps 100), the cursor filter
`timestamp <= lastEventTime` excludes E1 as well, so the poll suspends
(long-polls) instead of returning `[E1]` as the claim states. -/
theorem poll_exactly_once_cex :
    (poll
        ((emit
            ((emit
                (BusState.mk [Event.mk "e0" "task.created" 100 ⟨[]⟩]
                  [("s1", Subscription.mk "s1" ["task.created"] none none 0 (some "e0"))]
                  [])
                "task.created" ⟨[]⟩ 100 "e1").2.1)
            "job.created" ⟨[]⟩ 100 "e2").2.1)
        "s1" "p1").1 = PollResult.waiting "p1" ∧
    (poll
        ((emit
            ((emit
                (BusState.mk [Event.mk "e0" "task.created" 100 ⟨[]⟩]
                  [("s1", Subscription.mk "s1" ["task.created"] none none 0 (some "e0"))]
                  [])
                "task.created" ⟨[]⟩ 100 "e1").2.1)
            "job.created" ⟨[]⟩ 100 "e2").2.1)
        "s1" "p1").1 ≠ PollResult.events [Event.mk "e1" "task.created" 100 ⟨[]⟩] := by
  constructor
  · decide
  · decide

/-- C2 amended: with the subscription's cursor at a retained event E0, after
emitting E1 (a subscribed type, with timestamp strictly later than E0's — the
cursor filter compares timestamps, not ids) and E2 (an unsubscribed type),
`poll` returns exactly `[E1]` and advances the cursor to E1; a second
immediate `poll` finds nothing pending, registers a long-poll, and its timeout
resolves with an empty result, leaving the cursor at E1 (E1 is not
re-delivered).  Hypotheses additionally pin down the race-free scenario: no
pending polls, fresh event id for E1, every older event at or before E0's
timestamp, and both emits within the retention and count bounds. -/
theorem poll_exactly_once
    (es : List Event) (subs : List (String × Subscription)) (sub : Subscription)
    (e0 : Event) (subId τ1 τ2 id1 id2 pid1 pid2 : String) (p1 p2 : Obj)
    (now1 now2 : Int)
    (hsub : lookupKey subs subId = some sub)
    (_hwh : sub.webhook_url = none)
    (hcur : sub.last_event_id = some e0.id)
    (hfind : es.find? (fun e => e.id = e0.id) = some e0)
    (hold : ∀ e ∈ es, e.timestamp ≤ e0.timestamp)
    (hin : τ1 ∈ sub.event_types)
    (hout : τ2 ∉ sub.event_types)
    (ht1 : e0.timestamp < now1)
    (h12 : now1 ≤ now2)
    (hfresh : ∀ e ∈ es, e.id ≠ id1)
    (hlen : es.length + 2 ≤ MAX_EVENTS)
    (hret : ∀ e ∈ es, e.timestamp > now2 - EVENT_RETENTION_MS)
    (hret1 : now1 > now2 - EVENT_RETENTION_MS) :
    (poll ((emit ((emit (BusState.mk es subs []) τ1 p1 now1 id1).2.1) τ2 p2 now2
        id2).2.1) subId pid1).1 =
      PollResult.events [Event.mk id1 τ1 now1 p1] ∧
    lookupKey (poll ((emit ((emit (BusState.mk es subs []) τ1 p1 now1 id1).2.1) τ2 p2
        now2 id2).2.1) subId pid1).2.subscriptions subId =
      some { sub with last_event_id := some id1 } ∧
    (poll (poll ((emit ((emit (BusState.mk es subs []) τ1 p1 now1 id1).2.1) τ2 p2 now2
        id2).2.1) subId pid1).2 subId pid2).1 = PollResult.waiting pid2 ∧
    (pollTimeout (poll (poll ((emit ((emit (BusState.mk es subs []) τ1 p1 now1
        id1).2.1) τ2 p2 now2 id2).2.1) subId pid1).2 subId pid2).2 pid2).1 = [] ∧
    lookupKey (pollTimeout (poll (poll ((emit ((emit (BusState.mk es subs []) τ1 p1
        now1 id1).2.1) τ2 p2 now2 id2).2.1) subId pid1).2 subId pid2).2
        pid2).2.subscriptions subId = some { sub with last_event_id := some id1 } := by
  set E1 : Event := Event.mk id1 τ1 now1 p1 with hE1
  set E2 : Event := Event.mk id2 τ2 now2 p2 with hE2
  have hRET : (0 : Int) < EVENT_RETENTION_MS := by decide
  have hB1 : (emit (BusState.mk es subs []) τ1 p1 now1 id1).2.1 =
      BusState.mk (es ++ [E1]) subs [] := by
    unfold emit
    simp only [notifyPollersAux]
    rw [pruneEvents_id]
    · intro e he
      rcases List.mem_append.mp he with h | h
      · have := hret e h
        omega
      · simp only [List.mem_singleton] at h
        subst h
        simp only [hE1]
        omega
    · simp only [List.length_append, List.length_singleton]
      omega
  have hB2 : (emit (BusState.mk (es ++ [E1]) subs []) τ2 p2 now2 id2).2.1 =
      BusState.mk ((es ++ [E1]) ++ [E2]) subs [] := by
    unfold emit
    simp only [notifyPollersAux]
    rw [pruneEvents_id]
    · intro e he
      rcases List.mem_append.mp he with h | h
      · rcases List.mem_append.mp h with h' | h'
        · exact hret e h'
        · simp only [List.mem_singleton] at h'
          subst h'
          simpa [hE1] using hret1
      · simp only [List.mem_singleton] at h
        subst h
        simp only [hE2]
        omega
    · simp only [List.length_append, List.length_singleton]
      omega
  have hfind0 : ((es ++ [E1]) ++ [E2]).find? (fun e => e.id = e0.id) = some e0 := by
    rw [List.find?_append, List.find?_append, hfind]
    rfl
  have hpend1 : pendingFor ((es ++ [E1]) ++ [E2]) sub = [E1] := by
    unfold pendingFor
    simp only [hcur, hfind0, Option.map_some']
    rw [List.filter_append, List.filter_append]
    have hes : List.filter (fun e =>
        if e.type ∈ sub.event_types then decide (¬ e.timestamp ≤ e0.timestamp)
        else false) es = [] := by
      rw [List.filter_eq_nil_iff]
      intro e he
      by_cases h : e.type ∈ sub.event_types
      · simp [h, hold e he]
      · simp [h]
    have h1 : List.filter (fun e =>
        if e.type ∈ sub.event_types then decide (¬ e.timestamp ≤ e0.timestamp)
        else false) [E1] = [E1] := by
      rw [List.filter_singleton]
      simp only [hE1, hin, if_true]
      have hgt : ¬ now1 ≤ e0.timestamp := by omega
      simp [hgt]
    have h2 : List.filter (fun e =>
        if e.type ∈ sub.event_types then decide (¬ e.timestamp ≤ e0.timestamp)
        else false) [E2] = [] := by
      simp [List.filter, hE2, hout]
    rw [hes, h1, h2, List.nil_append, List.append_nil]
  have hpoll1 : poll (BusState.mk ((es ++ [E1]) ++ [E2]) subs []) subId pid1 =
      (PollResult.events [E1],
        BusState.mk ((es ++ [E1]) ++ [E2])
          (setKey subs subId { sub with last_event_id := some id1 }) []) := by
    unfold poll
    rw [hsub]
    simp only [hpend1]
    rfl
  have hsub2 : lookupKey (setKey subs subId { sub with last_event_id := some id1 })
      subId = some { sub with last_event_id := some id1 } :=
    lookupKey_setKey_self subs subId _
  have hpend2 : pendingFor ((es ++ [E1]) ++ [E2])
      { sub with last_event_id := some id1 } = [] := by
    unfold pendingFor
    have hfind2 : ((es ++ [E1]) ++ [E2]).find? (fun e => e.id = id1) = some E1 := by
      rw [List.find?_append, List.find?_append]
      rw [List.find?_eq_none.mpr (fun e he => by simpa using hfresh e he)]
      simp [List.find?, hE1]
    simp only [hfind2, Option.map_some']
    rw [List.filter_eq_nil_iff]
    intro e he
    rcases List.mem_append.mp he with h | h
    · rcases List.mem_append.mp h with h' | h'
      · by_cases hty : e.type ∈ sub.event_types
        · have h1 := hold e h'
          have h2 : e.timestamp ≤ E1.timestamp := by
            simp only [hE1]
            omega
          simp [hty, h2]
        · simp [hty]
      · simp only [List.mem_singleton] at h'
        subst h'
        simp [hin]
    · simp only [List.mem_singleton] at h
      subst h
      simp [hE2, hout]
  have hpoll2 : poll (BusState.mk ((es ++ [E1]) ++ [E2])
      (setKey subs subId { sub with last_event_id := some id1 }) []) subId pid2 =
      (PollResult.waiting pid2,
        BusState.mk ((es ++ [E1]) ++ [E2])
          (setKey subs subId { sub with last_event_id := some id1 })
          [(pid2, PendingPoll.mk subId)]) := by
    unfold poll
    rw [hsub2]
    simp only [hpend2]
    rfl
  rw [hB1, hB2, hpoll1]
  refine ⟨rfl, hsub2, ?_, ?_, ?_⟩
  · rw [hpoll2]
  · rw [hpoll2]
    rfl
  · rw [hpoll2]
    exact hsub2

/-- Witness for the amended C2: cursor at "e0" (timestamp 100), E1 at 101,
E2 at 102; the first poll delivers exactly E1, the second waits and times out
empty. -/
theorem poll_exactly_once_witness :
    lookupKey [("s1", Subscription.mk "s1" ["task.created"] none none 0 (some "e0"))]
        "s1" = some (Subscription.mk "s1" ["task.created"] none none 0 (some "e0")) ∧
    Subscription.webhook_url
      (Subscription.mk "s1" ["task.created"] none none 0 (some "e0")) = none ∧
    Subscription.last_event_id
        (Subscription.mk "s1" ["task.created"] none none 0 (some "e0")) =
      some (Event.id (Event.mk "e0" "task.created" 100 ⟨[]⟩)) ∧
    List.find? (fun e => Event.id e = Event.id (Event.mk "e0" "task.created" 100 ⟨[]⟩))
        [Event.mk "e0" "task.created" 100 ⟨[]⟩] =
      some (Event.mk "e0" "task.created" 100 ⟨[]⟩) ∧
    (∀ e ∈ [Event.mk "e0" "task.created" 100 ⟨[]⟩],
      Event.timestamp e ≤ Event.timestamp (Event.mk "e0" "task.created" 100 ⟨[]⟩)) ∧
    "task.created" ∈ Subscription.event_types
      (Subscription.mk "s1" ["task.created"] none none 0 (some "e0")) ∧
    "job.created" ∉ Subscription.event_types
      (Subscription.mk "s1" ["task.created"] none none 0 (some "e0")) ∧
    Event.timestamp (Event.mk "e0" "task.created" 100 ⟨[]⟩) < 101 ∧
    ((101 : Int) ≤ 102) ∧
    (∀ e ∈ [Event.mk "e0" "task.created" 100 ⟨[]⟩], Event.id e ≠ "e1") ∧
    [Event.mk "e0" "task.created" 100 ⟨[]⟩].length + 2 ≤ MAX_EVENTS ∧
    (∀ e ∈ [Event.mk "e0" "task.created" 100 ⟨[]⟩],
      Event.timestamp e > 102 - EVENT_RETENTION_MS) ∧
    ((101 : Int) > 102 - EVENT_RETENTION_MS) ∧
    ((poll ((emit ((emit (BusState.mk [Event.mk "e0" "task.created" 100 ⟨[]⟩]
          [("s1", Subscription.mk "s1" ["task.created"] none none 0 (some "e0"))] [])
          "task.created" ⟨[]⟩ 101 "e1").2.1) "job.created" ⟨[]⟩ 102 "e2").2.1)
          "s1" "pA").1 =
        PollResult.events [Event.mk "e1" "task.created" 101 ⟨[]⟩] ∧
      lookupKey (poll ((emit ((emit (BusState.mk [Event.mk "e0" "task.created" 100 ⟨[]⟩]
          [("s1", Subscription.mk "s1" ["task.created"] none none 0 (some "e0"))] [])
          "task.created" ⟨[]⟩ 101 "e1").2.1) "job.created" ⟨[]⟩ 102 "e2").2.1)
          "s1" "pA").2.subscriptions "s1" =
        some { Subscription.mk "s1" ["task.created"] none none 0 (some "e0") with
          last_event_id := some "e1" } ∧
      (poll (poll ((emit ((emit (BusState.mk [Event.mk "e0" "task.created" 100 ⟨[]⟩]
          [("s1", Subscription.mk "s1" ["task.created"] none none 0 (some "e0"))] [])
          "task.created" ⟨[]⟩ 101 "e1").2.1) "job.created" ⟨[]⟩ 102 "e2").2.1)
          "s1" "pA").2 "s1" "pB").1 = PollResult.waiting "pB" ∧
      (pollTimeout (poll (poll ((emit ((emit (BusState.mk
          [Event.mk "e0" "task.created" 100 ⟨[]⟩]
          [("s1", Subscription.mk "s1" ["task.created"] none none 0 (some "e0"))] [])
          "task.created" ⟨[]⟩ 101 "e1").2.1) "job.created" ⟨[]⟩ 102 "e2").2.1)
          "s1" "pA").2 "s1" "pB").2 "pB").1 = [] ∧
      lookupKey (pollTimeout (poll (poll ((emit ((emit (BusState.mk
          [Event.mk "e0" "task.created" 100 ⟨[]⟩]
          [("s1", Subscription.mk "s1" ["task.created"] none none 0 (some "e0"))] [])
          "task.created" ⟨[]⟩ 101 "e1").2.1) "job.created" ⟨[]⟩ 102 "e2").2.1)
          "s1" "pA").2 "s1" "pB").2 "pB").2.subscriptions "s1" =
        some { Subscription.mk "s1" ["task.created"] none none 0 (some "e0") with
          last_event_id := some "e1" }) :=
  ⟨by decide, by decide, by decide, by decide, by decide, by decide, by decide,
    by decide, by decide, by decide, by decide, by decide, by decide,
    poll_exactly_once [Event.mk "e0" "task.created" 100 ⟨[]⟩]
      [("s1", Subscription.mk "s1" ["task.created"] none none 0 (some "e0"))]
      (Subscription.mk "s1" ["task.created"] none none 0 (some "e0"))
      (Event.mk "e0" "task.created" 100 ⟨[]⟩) "s1" "task.created" "job.created"
      "e1" "e2" "pA" "pB" ⟨[]⟩ ⟨[]⟩ 101 102
      (by decide) (by decide) (by decide) (by decide) (by decide) (by decide)
      (by decide) (by decide) (by decide) (by decide) (by decide) (by decide)
      (by decide)⟩
